import Mathlib

/-!
# Verification of `src/backend/server_control.py`

A shallow embedding of the process-supervisor script `server_control.py`
(the POSIX / `sys.platform != 'win32'` branch of its platform switches)
together with theorems checking the specification's claims against it.

Modelling conventions:
* The only persisted state is the PID record file; `FS.pidFile` is `some c`
  when the file exists with content `c`, `none` when it is absent.
  `FS.execExists` models `SERVER_EXECUTABLE.exists()`.
* The zero-effect existence probe `os.kill(pid, 0)` is modelled by an oracle
  `alive : Int → Bool` (`true` = the call does not raise `OSError`).
* Exceptional behaviour of primitives is injected through boolean fields of
  an environment record (`readRaises` for `open`/`read` raising `IOError`,
  `termRaises` / `killRaises` for `os.kill(pid, SIGTERM/SIGKILL)` raising,
  `spawnRaises` for `subprocess.Popen` raising, `waitInterrupted` for
  `KeyboardInterrupt` during `process.wait()`).
* Side effects other than the record file (signals, sleeps, spawns, printed
  diagnostics) are recorded in an event trace of type `List Ev`.
-/

namespace ServerControl

/-! ## Python `int(str.strip())` parsing -/

/-- The ASCII whitespace characters removed by Python's `str.strip()`
(space, tab, newline, carriage return, vertical tab, form feed).
Unicode whitespace is not modelled; the claims only involve ASCII content. -/
def isPySpace (c : Char) : Bool :=
  c == ' ' || c == '\t' || c == '\n' || c == '\r' || c == Char.ofNat 11 || c == Char.ofNat 12

/-- `str.strip()` on the character list: drop leading and trailing whitespace. -/
def pyStrip (l : List Char) : List Char :=
  ((l.dropWhile isPySpace).reverse.dropWhile isPySpace).reverse

/-- Decimal value of a digit string. -/
def digitsVal (l : List Char) : Nat :=
  l.foldl (fun a c => 10 * a + (c.toNat - '0'.toNat)) 0

/-- All characters are ASCII decimal digits. -/
def allDigits (l : List Char) : Bool :=
  l.all (·.isDigit)

/-- Python `int(s)` on an already-stripped character list: an optional sign
followed by a nonempty digit string.  (Digit-group underscores and non-ASCII
digits, which CPython also accepts, are not modelled; no claim involves them.)
`none` models `ValueError`. -/
def pyIntCore (l : List Char) : Option Int :=
  match l with
  | '+' :: rest => if allDigits rest && !rest.isEmpty then some (digitsVal rest) else none
  | '-' :: rest => if allDigits rest && !rest.isEmpty then some (-(digitsVal rest : Int)) else none
  | _ => if allDigits l && !l.isEmpty then some (digitsVal l) else none

/-- `int(s.strip())`: `some n` on success, `none` for `ValueError`. -/
def pyInt (s : String) : Option Int :=
  pyIntCore (pyStrip s.data)

/-! ## State, environments, events -/

/-- The persisted state visible to `server_control.py`:
the PID record file (`PID_FILE`) and whether `SERVER_EXECUTABLE` exists. -/
structure FS where
  pidFile : Option String
  execExists : Bool
deriving DecidableEq, Repr

/-- Observable side effects, in program order.  `sleepTenths n` is a
`time.sleep` of `n` tenths of a time-unit (so `sleepTenths 5` is the 0.5 s
poll interval, `sleepTenths 20` the 2 s background settle wait,
`sleepTenths 10` the 1 s restart delay). -/
inductive Ev where
  | sigterm (pid : Int)
  | probe (pid : Int) (alive : Bool)
  | sigkill (pid : Int)
  | sleepTenths (n : Nat)
  | mkdirData
  | spawn (foreground : Bool) (useGo : Bool)
  | writePid (pid : Int)
  | waitChild
  | unlink
  | warnNotRunning
  | errAlreadyRunning
  | errNoExec
  | errSpawn
  | errStderr (msg : String)
  | errStopFailed
deriving DecidableEq, Repr

/-- Outcome of a Python call as seen by its caller: either a normal return
value or a propagating exception. -/
inductive PyResult (α : Type) where
  | ok (val : α)
  | raised
deriving DecidableEq, Repr

/-! ## `get_server_pid` -/

/-- `get_server_pid()`.  Source order: `PID_FILE.exists()` check; `open`/
`read` (an `IOError` here is caught by the outer `except (ValueError,
IOError)` and yields `None`, modelled by `readRaises`); `int(...)` (a
`ValueError` likewise yields `None`); the `os.kill(pid, 0)` probe — on
`OSError` the stale file is unlinked and `None` returned, otherwise the pid
is returned.  Returns the value together with the resulting file state. -/
def get_server_pid (alive : Int → Bool) (readRaises : Bool) (fs : FS) :
    Option Int × FS :=
  match fs.pidFile with
  | none => (none, fs)
  | some content =>
    if readRaises then (none, fs)
    else
      match pyInt content with
      | none => (none, fs)
      | some pid =>
        if alive pid then (some pid, fs)
        else (none, { fs with pidFile := none })

/-- `get_server_pid` as observed across the call boundary: every exception
its body can raise (`ValueError` from `int`, `IOError`/`OSError` from `open`,
`read` and `unlink` — in Python 3, `IOError` is an alias of `OSError`) is
caught by its own handlers, so the call always returns normally. -/
def get_server_pid_outcome (alive : Int → Bool) (readRaises : Bool) (fs : FS) :
    PyResult (Option Int) :=
  PyResult.ok (get_server_pid alive readRaises fs).1

/-- `is_server_running()`: `get_server_pid() is not None`. -/
def is_server_running (alive : Int → Bool) (readRaises : Bool) (fs : FS) :
    Bool × FS :=
  let r := get_server_pid alive readRaises fs
  (r.1.isSome, r.2)

/-! ## `status_server` -/

/-- The status line printed by `status_server()`. -/
inductive Status where
  | running (pid : Int)
  | stopped
deriving DecidableEq, Repr

/-- `status_server()`: report `RUNNING pid` or `STOPPED` from
`get_server_pid()` (so it performs the same self-healing read). -/
def status_server (alive : Int → Bool) (readRaises : Bool) (fs : FS) :
    Status × FS :=
  match get_server_pid alive readRaises fs with
  | (none, fs1) => (Status.stopped, fs1)
  | (some pid, fs1) => (Status.running pid, fs1)

/-! ## `stop_server` -/

/-- Exception environment for a `stop_server` call.  `alive`/`readRaises`
feed the initial `get_server_pid`; `termRaises` (resp. `killRaises`) is
whether `os.kill(pid, SIGTERM)` (resp. `SIGKILL`) raises; `pollAlive i` is
the result of the `os.kill(pid, 0)` probe on wait-loop iteration `i`
(`true` = still exists, i.e. the probe does not raise `OSError`). -/
structure StopEnv where
  alive : Int → Bool
  readRaises : Bool
  termRaises : Bool
  killRaises : Bool
  pollAlive : Nat → Bool

/-- The `for _ in range(10): time.sleep(0.5); try: os.kill(pid, 0) except
OSError: break` wait loop, at iteration `i` with `n` iterations left.
Returns the emitted events and whether the loop ran to completion without
`break` (in which case the `for`'s `else:` force-kill branch runs). -/
def stopPoll (pid : Int) (f : Nat → Bool) : Nat → Nat → List Ev × Bool
  | _, 0 => ([], true)
  | i, n + 1 =>
    if f i then
      let r := stopPoll pid f (i + 1) n
      (Ev.sleepTenths 5 :: Ev.probe pid true :: r.1, r.2)
    else
      ([Ev.sleepTenths 5, Ev.probe pid false], false)

/-- Number of probe attempts the wait loop makes starting at iteration `i`
with `n` iterations left: it stops early after the first probe that finds
the process absent. -/
def pollCount (f : Nat → Bool) : Nat → Nat → Nat
  | _, 0 => 0
  | i, n + 1 => if f i then pollCount f (i + 1) n + 1 else 1

/-- Whether every probe from iteration `i` for `n` iterations finds the
process still present (the loop's no-`break` condition). -/
def allAliveFrom (f : Nat → Bool) : Nat → Nat → Bool
  | _, 0 => true
  | i, n + 1 => f i && allAliveFrom f (i + 1) n

/-- `stop_server()` (POSIX branch; on win32 the graceful and forced steps
are both `taskkill /F`, which never raises thanks to `check=False`).
Reads the pid (warning + `False` when none); sends `SIGTERM`; waits;
force-`SIGKILL`s when the wait loop completed with the process present;
unlinks the record; returns `True`.  Any exception from the kill calls is
caught by `except Exception`, which prints the error and returns `False` —
note the `PID_FILE.unlink` sits inside the `try`, after the kills, so those
error paths return with the record file untouched. -/
def stop_server (env : StopEnv) (fs : FS) : Bool × FS × List Ev :=
  match get_server_pid env.alive env.readRaises fs with
  | (none, fs1) => (false, fs1, [Ev.warnNotRunning])
  | (some pid, fs1) =>
    if env.termRaises then (false, fs1, [Ev.sigterm pid, Ev.errStopFailed])
    else
      let pr := stopPoll pid env.pollAlive 0 10
      if pr.2 then
        if env.killRaises then
          (false, fs1, Ev.sigterm pid :: pr.1 ++ [Ev.sigkill pid, Ev.errStopFailed])
        else
          (true, { fs1 with pidFile := none },
            Ev.sigterm pid :: pr.1 ++ [Ev.sigkill pid, Ev.unlink])
      else
        (true, { fs1 with pidFile := none }, Ev.sigterm pid :: pr.1 ++ [Ev.unlink])

/-! ## `start_server` and `restart_server` -/

/-- Environment for a `start_server` call.  `alive`/`readRaises` feed the
initial `is_server_running` check; `spawnRaises` is whether
`subprocess.Popen` (or anything else inside the `try`) raises; `childPid`
is `process.pid` of a successful spawn; `waitInterrupted` is whether
`process.wait()` is interrupted by `KeyboardInterrupt` (foreground mode);
`exitedWithinGrace` is whether `process.poll()` after the 2 s settle sleep
reports the child already exited (background mode); `stderrOut` is the
decoded stderr captured by `process.communicate()`; `stopEnv` drives the
nested `stop_server()` call on the interrupt path. -/
structure StartEnv where
  alive : Int → Bool
  readRaises : Bool
  spawnRaises : Bool
  childPid : Int
  waitInterrupted : Bool
  exitedWithinGrace : Bool
  stderrOut : String
  stopEnv : StopEnv

/-- `start_server(foreground, use_go)`.  Source order: the
`is_server_running()` check (the failure message re-reads the pid, which
cannot mutate state for a live pid, so a single read is modelled); the
executable-existence check (skipped with `--go`); `PID_FILE.parent.mkdir`;
then the `try` block.  Foreground: spawn, write the pid file, `wait()` —
on `KeyboardInterrupt` run `stop_server()` — and in all cases the `finally`
unlinks the pid file; returns `True`.  Background: spawn, write the pid
file, sleep 2 s, then `poll()`: still running means success with the record
left in place, already exited means the captured stderr is printed (when
nonempty), the record unlinked and `False` returned.  Any exception inside
the `try` (e.g. the spawn itself) hits `except Exception`, which unlinks
the record (`missing_ok=True`) and returns `False`. -/
def start_server (foreground use_go : Bool) (env : StartEnv) (fs : FS) :
    Bool × FS × List Ev :=
  match get_server_pid env.alive env.readRaises fs with
  | (some _, fs1) => (false, fs1, [Ev.errAlreadyRunning])
  | (none, fs1) =>
    if !use_go && !fs1.execExists then (false, fs1, [Ev.errNoExec])
    else if env.spawnRaises then
      (false, { fs1 with pidFile := none },
        [Ev.mkdirData, Ev.spawn foreground use_go, Ev.errSpawn, Ev.unlink])
    else if foreground then
      let fs2 : FS := { fs1 with pidFile := some (toString env.childPid) }
      if env.waitInterrupted then
        let r := stop_server env.stopEnv fs2
        (true, { r.2.1 with pidFile := none },
          [Ev.mkdirData, Ev.spawn true use_go, Ev.writePid env.childPid, Ev.waitChild]
            ++ r.2.2 ++ [Ev.unlink])
      else
        (true, { fs2 with pidFile := none },
          [Ev.mkdirData, Ev.spawn true use_go, Ev.writePid env.childPid,
            Ev.waitChild, Ev.unlink])
    else
      let fs2 : FS := { fs1 with pidFile := some (toString env.childPid) }
      if env.exitedWithinGrace then
        (false, { fs2 with pidFile := none },
          [Ev.mkdirData, Ev.spawn false use_go, Ev.writePid env.childPid,
            Ev.sleepTenths 20, Ev.errSpawn]
            ++ (if env.stderrOut ≠ "" then [Ev.errStderr env.stderrOut] else [])
            ++ [Ev.unlink])
      else
        (true, fs2,
          [Ev.mkdirData, Ev.spawn false use_go, Ev.writePid env.childPid,
            Ev.sleepTenths 20])

/-- `restart_server()`: `stop_server()`, `time.sleep(1)`, then
`start_server()` with its default arguments `foreground=False`,
`use_go=False`.  The Python function returns `None`; the resulting file
state and the combined event trace are the observables. -/
def restart_server (se : StopEnv) (ste : StartEnv) (fs : FS) : FS × List Ev :=
  let r1 := stop_server se fs
  let r2 := start_server false false ste r1.2.1
  (r2.2.1, r1.2.2 ++ Ev.sleepTenths 10 :: r2.2.2)

/-! ## Concrete environments used to instantiate the theorems -/

/-- Every primitive succeeds; the probed process never disappears. -/
def stopEnvAlways : StopEnv := ⟨fun _ => true, false, false, false, fun _ => true⟩

/-- The existence probe reports every pid absent (all else succeeds). -/
def stopEnvDead : StopEnv := ⟨fun _ => false, false, false, false, fun _ => true⟩

/-- Pid 123 is live and `os.kill(123, SIGTERM)` raises. -/
def stopEnvTermRaises : StopEnv := ⟨fun p => p == 123, false, true, false, fun _ => true⟩

/-- Pid 9 is live, stops at the first poll, no primitive raises. -/
def stopEnvFor9 : StopEnv := ⟨fun p => p == 9, false, false, false, fun _ => false⟩

/-- Pid -1 is live, stops at the first poll, no primitive raises. -/
def stopEnvNeg : StopEnv := ⟨fun p => p == -1, false, false, false, fun _ => false⟩

/-- Pid 7 is live and survives every poll, forcing the full escalation. -/
def stopEnvFull : StopEnv := ⟨fun p => p == 7, false, false, false, fun _ => true⟩

/-- A start attempt while pid 5 is live. -/
def startEnvRunning : StartEnv :=
  ⟨fun p => p == 5, false, false, 9, false, false, "", stopEnvAlways⟩

/-- A background start whose child (pid 9) exits within the grace interval
with stderr output. -/
def startEnvBgCrash : StartEnv :=
  ⟨fun _ => false, false, false, 9, false, true, "boom", stopEnvAlways⟩

/-- A foreground start of child pid 9 whose wait is interrupted. -/
def startEnvFgInt : StartEnv :=
  ⟨fun _ => false, false, false, 9, true, false, "", stopEnvFor9⟩

/-- A background start of child pid 9 that settles successfully. -/
def startEnvBgOk : StartEnv :=
  ⟨fun _ => false, false, false, 9, false, false, "", stopEnvAlways⟩

/-! ### Case lemmas for `get_server_pid` -/

theorem get_absent (alive : Int → Bool) (r : Bool) (fs : FS)
    (hf : fs.pidFile = none) : get_server_pid alive r fs = (none, fs) := by
  cases fs with
  | mk p e => cases hf; rfl

theorem get_live (alive : Int → Bool) (fs : FS) (s : String) (pid : Int)
    (hf : fs.pidFile = some s) (hp : pyInt s = some pid)
    (ha : alive pid = true) :
    get_server_pid alive false fs = (some pid, fs) := by
  cases fs with
  | mk p e =>
    cases hf
    simp [get_server_pid, hp, ha]

theorem get_stale (alive : Int → Bool) (fs : FS) (s : String) (pid : Int)
    (hf : fs.pidFile = some s) (hp : pyInt s = some pid)
    (ha : alive pid = false) :
    get_server_pid alive false fs = (none, { fs with pidFile := none }) := by
  cases fs with
  | mk p e =>
    cases hf
    simp [get_server_pid, hp, ha]

theorem get_badparse (alive : Int → Bool) (r : Bool) (fs : FS) (s : String)
    (hf : fs.pidFile = some s) (hp : pyInt s = none) :
    get_server_pid alive r fs = (none, fs) := by
  cases fs with
  | mk p e =>
    cases hf
    cases r <;> simp [get_server_pid, hp]

theorem get_readerr (alive : Int → Bool) (fs : FS) (s : String)
    (hf : fs.pidFile = some s) :
    get_server_pid alive true fs = (none, fs) := by
  cases fs with
  | mk p e =>
    cases hf
    simp [get_server_pid]

/-- `get_server_pid` never touches `execExists`. -/
theorem get_preserves_exec (alive : Int → Bool) (r : Bool) (fs : FS) :
    (get_server_pid alive r fs).2.execExists = fs.execExists := by
  cases fs with
  | mk p e =>
    cases p with
    | none => rfl
    | some s =>
      cases r with
      | true => rfl
      | false =>
        simp only [get_server_pid]
        cases pyInt s with
        | none => rfl
        | some pid => by_cases h : alive pid = true <;> simp [h]

/-- When `get_server_pid` reports no live pid, the file state is either
untouched or has had just the record removed (the self-healing unlink). -/
theorem get_none_cases (alive : Int → Bool) (r : Bool) (fs : FS)
    (h : (get_server_pid alive r fs).1 = none) :
    (get_server_pid alive r fs).2 = fs ∨
      (get_server_pid alive r fs).2 = { fs with pidFile := none } := by
  cases fs with
  | mk p e =>
    cases p with
    | none => left; rfl
    | some s =>
      cases r with
      | true => left; rfl
      | false =>
        simp only [get_server_pid] at h ⊢
        cases hp : pyInt s with
        | none => left; simp [hp]
        | some pid =>
          simp only [hp] at h ⊢
          by_cases ha : alive pid = true
          · simp [ha] at h
          · simp only [Bool.not_eq_true] at ha
            simp [ha]


/-! ### Wait-loop lemmas -/

theorem stopPoll_spec (pid : Int) (f : Nat → Bool) :
    ∀ n i, stopPoll pid f i n
      = ((List.range' i (pollCount f i n)).flatMap
          (fun j => [Ev.sleepTenths 5, Ev.probe pid (f j)]),
         allAliveFrom f i n) := by
  intro n
  induction n with
  | zero => intro i; simp [stopPoll, pollCount, allAliveFrom]
  | succ n ih =>
    intro i
    by_cases h : f i = true
    · simp [stopPoll, pollCount, allAliveFrom, h, ih (i + 1), List.range'_succ]
    · simp only [Bool.not_eq_true] at h
      simp [stopPoll, pollCount, allAliveFrom, h, List.range'_succ]

theorem pollCount_le (f : Nat → Bool) : ∀ n i, pollCount f i n ≤ n := by
  intro n
  induction n with
  | zero => intro i; simp [pollCount]
  | succ n ih =>
    intro i
    by_cases h : f i = true
    · simp only [pollCount, h, if_true]
      exact Nat.succ_le_succ (ih (i + 1))
    · simp only [Bool.not_eq_true] at h
      simp [pollCount, h]

theorem pollCount_pos (f : Nat → Bool) : ∀ n i, 0 < n → 0 < pollCount f i n := by
  intro n
  cases n with
  | zero => intro i h; omega
  | succ n =>
    intro i _
    by_cases h : f i = true <;> simp [pollCount, h]

theorem allAliveFrom_iff (f : Nat → Bool) :
    ∀ n i, allAliveFrom f i n = true ↔ ∀ j, j < n → f (i + j) = true := by
  intro n
  induction n with
  | zero => intro i; simp [allAliveFrom]
  | succ n ih =>
    intro i
    simp only [allAliveFrom, Bool.and_eq_true, ih (i + 1)]
    constructor
    · rintro ⟨h0, hrest⟩ j hj
      cases j with
      | zero => simpa using h0
      | succ j =>
        have := hrest j (by omega)
        simpa [Nat.add_assoc, Nat.add_comm 1 j] using this
    · intro h
      refine ⟨by simpa using h 0 (by omega), fun j hj => ?_⟩
      have := h (j + 1) (by omega)
      simpa [Nat.add_assoc, Nat.add_comm 1 j] using this

theorem pollCount_of_allAlive (f : Nat → Bool) :
    ∀ n i, allAliveFrom f i n = true → pollCount f i n = n := by
  intro n
  induction n with
  | zero => intro i _; rfl
  | succ n ih =>
    intro i h
    simp only [allAliveFrom, Bool.and_eq_true] at h
    simp [pollCount, h.1, ih (i + 1) h.2]

theorem pollCount_last_dead (f : Nat → Bool) :
    ∀ n i, allAliveFrom f i n = false → f (i + (pollCount f i n - 1)) = false := by
  intro n
  induction n with
  | zero => intro i h; simp [allAliveFrom] at h
  | succ n ih =>
    intro i h
    simp only [allAliveFrom, Bool.and_eq_false_iff] at h
    by_cases hi : f i = true
    · have hrest : allAliveFrom f (i + 1) n = false := by
        rcases h with h | h
        · rw [hi] at h; cases h
        · exact h
      have hn : 0 < n := by
        cases n with
        | zero => simp [allAliveFrom] at hrest
        | succ m => omega
      have hpos := pollCount_pos f n (i + 1) hn
      have := ih (i + 1) hrest
      simp only [pollCount, hi, if_true]
      have harith : i + (pollCount f (i + 1) n + 1 - 1) = i + 1 + (pollCount f (i + 1) n - 1) := by
        omega
      rw [harith]
      exact this
    · simp only [Bool.not_eq_true] at hi
      simp [pollCount, hi]

theorem pollCount_early (f : Nat → Bool) :
    ∀ n i j, j + 1 < pollCount f i n → f (i + j) = true := by
  intro n
  induction n with
  | zero => intro i j h; simp [pollCount] at h
  | succ n ih =>
    intro i j h
    by_cases hi : f i = true
    · simp only [pollCount, hi, if_true] at h
      cases j with
      | zero => simpa using hi
      | succ j =>
        have := ih (i + 1) j (by omega)
        simpa [Nat.add_assoc, Nat.add_comm 1 j] using this
    · simp only [Bool.not_eq_true] at hi
      simp [pollCount, hi] at h


/-! ## Claim C1 -/

/-- Claim C1: for every record file whose content parses as an integer pid
for which the existence probe reports the process does not exist,
`get_server_pid` returns none and the record file no longer exists
afterward; a status call on such a stale record reports stopped. -/
theorem C1_stale_record_self_heals (alive : Int → Bool) (fs : FS)
    (s : String) (pid : Int) (hf : fs.pidFile = some s)
    (hp : pyInt s = some pid) (hd : alive pid = false) :
    get_server_pid alive false fs = (none, { fs with pidFile := none })
    ∧ (get_server_pid alive false fs).2.pidFile = none
    ∧ status_server alive false fs = (Status.stopped, { fs with pidFile := none }) := by
  have h := get_stale alive fs s pid hf hp hd
  refine ⟨h, by rw [h], ?_⟩
  simp [status_server, h]

/-- Instantiation of `C1_stale_record_self_heals` at a record `"999999999"`
naming a dead process. -/
theorem C1_stale_record_self_heals_witness :
    (⟨some "999999999", true⟩ : FS).pidFile = some "999999999"
    ∧ pyInt "999999999" = some 999999999
    ∧ (get_server_pid (fun _ => false) false ⟨some "999999999", true⟩
          = (none, { pidFile := none, execExists := true })
        ∧ (get_server_pid (fun _ => false) false ⟨some "999999999", true⟩).2.pidFile = none
        ∧ status_server (fun _ => false) false ⟨some "999999999", true⟩
          = (Status.stopped, { pidFile := none, execExists := true })) :=
  ⟨rfl, by decide,
    C1_stale_record_self_heals (fun _ => false) ⟨some "999999999", true⟩
      "999999999" 999999999 rfl (by decide) rfl⟩

/-! ## Claim C2 -/

/-- Claim C2 as stated is false: with the record file present but unreadable
(an `IOError` that is not nonexistence), `get_server_pid` returns normally
with `None` — the `except (ValueError, IOError)` clause swallows the error —
instead of surfacing it. -/
theorem C2_read_error_counterexample :
    get_server_pid_outcome (fun _ => true) true ⟨some "123", true⟩ = PyResult.ok none
    ∧ get_server_pid_outcome (fun _ => true) true ⟨some "123", true⟩ ≠ PyResult.raised
    ∧ (get_server_pid (fun _ => true) true ⟨some "123", true⟩).2.pidFile = some "123" := by
  exact ⟨rfl, by decide, rfl⟩

/-- Claim C2 amended: for every read of the record file that fails with an
I/O error other than nonexistence, `get_server_pid` catches the error and
silently returns none, leaving the record file in place — no error is
surfaced to the caller. -/
theorem C2_read_error_silent_none (alive : Int → Bool) (fs : FS) (s : String)
    (hf : fs.pidFile = some s) :
    get_server_pid_outcome alive true fs = PyResult.ok none
    ∧ get_server_pid alive true fs = (none, fs) := by
  have h := get_readerr alive fs s hf
  exact ⟨by simp [get_server_pid_outcome, h], h⟩

/-- Instantiation of `C2_read_error_silent_none` at an unreadable record
file with content `"123"`. -/
theorem C2_read_error_silent_none_witness :
    (⟨some "123", true⟩ : FS).pidFile = some "123"
    ∧ (get_server_pid_outcome (fun _ => true) true ⟨some "123", true⟩ = PyResult.ok none
        ∧ get_server_pid (fun _ => true) true ⟨some "123", true⟩
          = (none, ⟨some "123", true⟩)) :=
  ⟨rfl, C2_read_error_silent_none (fun _ => true) ⟨some "123", true⟩ "123" rfl⟩

/-! ## Claim C3 -/

/-- Claim C3 as stated is false: when `os.kill(pid, SIGTERM)` raises on a
live pid, `stop_server` reports failure but does NOT clear the PID record
file — `PID_FILE.unlink` sits after the kill calls inside the `try`, so the
`except` path returns with the record intact. -/
theorem C3_signal_error_counterexample :
    (stop_server stopEnvTermRaises ⟨some "123", true⟩).1 = false
    ∧ (stop_server stopEnvTermRaises ⟨some "123", true⟩).2.1.pidFile = some "123"
    ∧ (stop_server stopEnvTermRaises ⟨some "123", true⟩).2.1.pidFile ≠ none := by
  exact ⟨rfl, rfl, by decide⟩

/-- Claim C3 amended: for every stop call on a live pid in which a
signal/kill primitive raises (the graceful `SIGTERM`, or the forced
`SIGKILL` after a fully elapsed wait), `stop_server` catches the error and
reports the operation as a failure, but returns with the PID record file
left in place, not cleared. -/
theorem C3_signal_error_keeps_record (env : StopEnv) (fs : FS) (s : String)
    (pid : Int) (hf : fs.pidFile = some s) (hp : pyInt s = some pid)
    (ha : env.alive pid = true) (hr : env.readRaises = false)
    (hx : env.termRaises = true
          ∨ (allAliveFrom env.pollAlive 0 10 = true ∧ env.killRaises = true)) :
    (stop_server env fs).1 = false
    ∧ (stop_server env fs).2.1 = fs
    ∧ (stop_server env fs).2.1.pidFile = some s := by
  have hg : get_server_pid env.alive env.readRaises fs = (some pid, fs) := by
    rw [hr]; exact get_live env.alive fs s pid hf hp ha
  rcases hx with ht | ⟨hall, hk⟩
  · refine ⟨?_, ?_, ?_⟩ <;> simp [stop_server, hg, ht, hf]
  · have hpr : (stopPoll pid env.pollAlive 0 10).2 = true := by
      rw [stopPoll_spec pid env.pollAlive 10 0]; exact hall
    by_cases ht : env.termRaises = true
    · refine ⟨?_, ?_, ?_⟩ <;> simp [stop_server, hg, ht, hf]
    · simp only [Bool.not_eq_true] at ht
      refine ⟨?_, ?_, ?_⟩ <;> simp [stop_server, hg, ht, hpr, hk, hf]

/-- Instantiation of `C3_signal_error_keeps_record` at a live pid 123 whose
`SIGTERM` raises. -/
theorem C3_signal_error_keeps_record_witness :
    (⟨some "123", true⟩ : FS).pidFile = some "123"
    ∧ pyInt "123" = some 123
    ∧ stopEnvTermRaises.alive 123 = true
    ∧ ((stop_server stopEnvTermRaises ⟨some "123", true⟩).1 = false
        ∧ (stop_server stopEnvTermRaises ⟨some "123", true⟩).2.1 = ⟨some "123", true⟩
        ∧ (stop_server stopEnvTermRaises ⟨some "123", true⟩).2.1.pidFile = some "123") :=
  ⟨rfl, by decide, by decide,
    C3_signal_error_keeps_record stopEnvTermRaises ⟨some "123", true⟩ "123" 123
      rfl (by decide) (by decide) rfl (Or.inl rfl)⟩

/-! ## Claim C4 -/

/-- Claim C4: whenever the registry reports a live process, a start call
(in any mode) fails with the already-running report before any spawn, and
leaves the record file in place with the original pid string. -/
theorem C4_no_duplicate_start (env : StartEnv) (fg go : Bool) (fs : FS)
    (s : String) (pid : Int) (hf : fs.pidFile = some s)
    (hp : pyInt s = some pid) (ha : env.alive pid = true)
    (hr : env.readRaises = false) :
    start_server fg go env fs = (false, fs, [Ev.errAlreadyRunning])
    ∧ (start_server fg go env fs).2.1.pidFile = some s
    ∧ ∀ b g, Ev.spawn b g ∉ (start_server fg go env fs).2.2 := by
  have hg : get_server_pid env.alive env.readRaises fs = (some pid, fs) := by
    rw [hr]; exact get_live env.alive fs s pid hf hp ha
  have hmain : start_server fg go env fs = (false, fs, [Ev.errAlreadyRunning]) := by
    simp [start_server, hg]
  refine ⟨hmain, by rw [hmain]; exact hf, ?_⟩
  intro b g
  rw [hmain]
  simp

/-- Instantiation of `C4_no_duplicate_start`: a foreground `--go` start
attempt while pid 5 is live and recorded. -/
theorem C4_no_duplicate_start_witness :
    (⟨some "5", true⟩ : FS).pidFile = some "5"
    ∧ pyInt "5" = some 5
    ∧ startEnvRunning.alive 5 = true
    ∧ (start_server true true startEnvRunning ⟨some "5", true⟩
          = (false, ⟨some "5", true⟩, [Ev.errAlreadyRunning])
        ∧ (start_server true true startEnvRunning ⟨some "5", true⟩).2.1.pidFile = some "5"
        ∧ ∀ b g, Ev.spawn b g ∉ (start_server true true startEnvRunning ⟨some "5", true⟩).2.2) :=
  ⟨rfl, by decide, by decide,
    C4_no_duplicate_start startEnvRunning true true ⟨some "5", true⟩ "5" 5
      rfl (by decide) (by decide) rfl⟩

/-! ## Claim C5 -/

/-- Claim C5: for every background-mode launch (the duplicate-start and
executable checks passed, the spawn itself succeeded): if the child has
exited by the end of the 2 s grace interval, start returns failure, the
captured stderr is surfaced when nonempty, and the record file is absent
afterward; if the child is still running, start returns success and the
record file holds the child's pid. -/
theorem C5_background_settle (env : StartEnv) (go : Bool) (fs : FS)
    (hrun : (get_server_pid env.alive env.readRaises fs).1 = none)
    (hexec : go = true ∨ fs.execExists = true)
    (hspawn : env.spawnRaises = false) :
    (env.exitedWithinGrace = true →
      (start_server false go env fs).1 = false
      ∧ (start_server false go env fs).2.1.pidFile = none
      ∧ (env.stderrOut ≠ "" →
          Ev.errStderr env.stderrOut ∈ (start_server false go env fs).2.2))
    ∧ (env.exitedWithinGrace = false →
      (start_server false go env fs).1 = true
      ∧ (start_server false go env fs).2.1.pidFile = some (toString env.childPid)) := by
  rcases hget : get_server_pid env.alive env.readRaises fs with ⟨o, fs1⟩
  rw [hget] at hrun
  simp only at hrun
  subst hrun
  have he : fs1.execExists = fs.execExists := by
    rw [← get_preserves_exec env.alive env.readRaises fs, hget]
  have hcond : (!go && !fs1.execExists) = false := by
    rcases hexec with h | h
    · simp [h]
    · simp [he, h]
  constructor
  · intro hexit
    refine ⟨?_, ?_, ?_⟩
    · simp [start_server, hget, hcond, hspawn, hexit]
    · simp [start_server, hget, hcond, hspawn, hexit]
    · intro hs
      simp [start_server, hget, hcond, hspawn, hexit, hs]
  · intro hexit
    constructor
    · simp [start_server, hget, hcond, hspawn, hexit]
    · simp [start_server, hget, hcond, hspawn, hexit]

/-- Instantiation of `C5_background_settle`: a background start whose child
(pid 9) dies within the grace interval with stderr `"boom"`, from an empty
record state. -/
theorem C5_background_settle_witness :
    (get_server_pid startEnvBgCrash.alive startEnvBgCrash.readRaises ⟨none, true⟩).1 = none
    ∧ startEnvBgCrash.spawnRaises = false
    ∧ ((startEnvBgCrash.exitedWithinGrace = true →
          (start_server false false startEnvBgCrash ⟨none, true⟩).1 = false
          ∧ (start_server false false startEnvBgCrash ⟨none, true⟩).2.1.pidFile = none
          ∧ (startEnvBgCrash.stderrOut ≠ "" →
              Ev.errStderr startEnvBgCrash.stderrOut
                ∈ (start_server false false startEnvBgCrash ⟨none, true⟩).2.2))
        ∧ (startEnvBgCrash.exitedWithinGrace = false →
          (start_server false false startEnvBgCrash ⟨none, true⟩).1 = true
          ∧ (start_server false false startEnvBgCrash ⟨none, true⟩).2.1.pidFile
              = some (toString startEnvBgCrash.childPid)))
    ∧ Ev.errStderr "boom" ∈ (start_server false false startEnvBgCrash ⟨none, true⟩).2.2 :=
  ⟨rfl, rfl,
    C5_background_settle startEnvBgCrash false ⟨none, true⟩ rfl (Or.inr rfl) rfl,
    ((C5_background_settle startEnvBgCrash false ⟨none, true⟩ rfl (Or.inr rfl) rfl).1
        rfl).2.2 (by decide)⟩

/-! ## Claim C6 -/

/-- Claim C6: for every foreground-mode launch (the duplicate-start and
executable checks passed), on every exit path — normal child completion,
interruption of the wait (which first drives a `stop_server` against the
recorded child pid), or spawn failure — the PID record file is absent when
the call returns. -/
theorem C6_foreground_record_scoped (env : StartEnv) (go : Bool) (fs : FS)
    (hrun : (get_server_pid env.alive env.readRaises fs).1 = none)
    (hexec : go = true ∨ fs.execExists = true) :
    (start_server true go env fs).2.1.pidFile = none
    ∧ (env.spawnRaises = false → env.waitInterrupted = true →
        (start_server true go env fs).2.2
          = [Ev.mkdirData, Ev.spawn true go, Ev.writePid env.childPid, Ev.waitChild]
              ++ (stop_server env.stopEnv
                    { (get_server_pid env.alive env.readRaises fs).2 with
                        pidFile := some (toString env.childPid) }).2.2
              ++ [Ev.unlink]) := by
  rcases hget : get_server_pid env.alive env.readRaises fs with ⟨o, fs1⟩
  rw [hget] at hrun
  simp only at hrun
  subst hrun
  have he : fs1.execExists = fs.execExists := by
    rw [← get_preserves_exec env.alive env.readRaises fs, hget]
  have hcond : (!go && !fs1.execExists) = false := by
    rcases hexec with h | h
    · simp [h]
    · simp [he, h]
  constructor
  · by_cases hs : env.spawnRaises = true
    · simp [start_server, hget, hcond, hs]
    · simp only [Bool.not_eq_true] at hs
      by_cases hw : env.waitInterrupted = true
      · simp [start_server, hget, hcond, hs, hw]
      · simp only [Bool.not_eq_true] at hw
        simp [start_server, hget, hcond, hs, hw]
  · intro hs hw
    simp [start_server, hget, hcond, hs, hw]

/-- Instantiation of `C6_foreground_record_scoped`: a foreground start of
child pid 9 whose wait is interrupted; the driven stop finds pid 9 live and
it exits at the first poll. -/
theorem C6_foreground_record_scoped_witness :
    (get_server_pid startEnvFgInt.alive startEnvFgInt.readRaises ⟨none, true⟩).1 = none
    ∧ ((start_server true false startEnvFgInt ⟨none, true⟩).2.1.pidFile = none
        ∧ (startEnvFgInt.spawnRaises = false → startEnvFgInt.waitInterrupted = true →
            (start_server true false startEnvFgInt ⟨none, true⟩).2.2
              = [Ev.mkdirData, Ev.spawn true false, Ev.writePid startEnvFgInt.childPid,
                  Ev.waitChild]
                  ++ (stop_server startEnvFgInt.stopEnv
                        { (get_server_pid startEnvFgInt.alive startEnvFgInt.readRaises
                            ⟨none, true⟩).2 with
                            pidFile := some (toString startEnvFgInt.childPid) }).2.2
                  ++ [Ev.unlink]))
    ∧ (start_server true false startEnvFgInt ⟨none, true⟩).2.2
        = [Ev.mkdirData, Ev.spawn true false, Ev.writePid 9, Ev.waitChild,
            Ev.sigterm 9, Ev.sleepTenths 5, Ev.probe 9 false, Ev.unlink, Ev.unlink] :=
  ⟨rfl,
    C6_foreground_record_scoped startEnvFgInt false ⟨none, true⟩ rfl (Or.inr rfl),
    by decide⟩

/-! ## Claim C7 -/

/-- Claim C7 as stated is false on two counts, witnessed here by the first:
a stop call in a stale-record state (record `"999"`, process absent) reports
the not-running warning but DOES mutate persisted state — the self-healing
read deletes the record file.  Likewise a restart call with no live process
proceeds past the warning to a fresh background start, which creates a new
record. -/
theorem C7_not_running_counterexample :
    (stop_server stopEnvDead ⟨some "999", true⟩).2.2 = [Ev.warnNotRunning]
    ∧ (stop_server stopEnvDead ⟨some "999", true⟩).2.1 ≠ (⟨some "999", true⟩ : FS)
    ∧ (restart_server stopEnvDead startEnvBgOk ⟨none, true⟩).1.pidFile = some "9" := by
  exact ⟨rfl, by decide, rfl⟩

/-- Claim C7 amended: for every state with no live managed process (no
record, unparsable record, or stale record), a stop call reports the
not-running warning, does not raise, returns false, and changes persisted
state only through the self-healing read (the state is either untouched or
has just the stale record removed); a restart call issues the same warning
from its stop phase and then, after the fixed delay, proceeds to a default
background start (which may create a new record); in particular two
consecutive stop calls with no process ever launched both return
not-running. -/
theorem C7_not_running_amended (se : StopEnv) (ste : StartEnv) (fs : FS)
    (h : (get_server_pid se.alive se.readRaises fs).1 = none) :
    stop_server se fs
      = (false, (get_server_pid se.alive se.readRaises fs).2, [Ev.warnNotRunning])
    ∧ ((get_server_pid se.alive se.readRaises fs).2 = fs
        ∨ (get_server_pid se.alive se.readRaises fs).2 = { fs with pidFile := none })
    ∧ (fs.pidFile = none →
        stop_server se fs = (false, fs, [Ev.warnNotRunning])
        ∧ stop_server se (stop_server se fs).2.1 = (false, fs, [Ev.warnNotRunning]))
    ∧ (restart_server se ste fs).2
        = Ev.warnNotRunning :: Ev.sleepTenths 10 ::
            (start_server false false ste
              (get_server_pid se.alive se.readRaises fs).2).2.2 := by
  have hcases := get_none_cases se.alive se.readRaises fs h
  rcases hget : get_server_pid se.alive se.readRaises fs with ⟨o, fs1⟩
  rw [hget] at h
  simp only at h
  subst h
  rw [hget] at hcases
  simp only at hcases
  have hstop : stop_server se fs = (false, fs1, [Ev.warnNotRunning]) := by
    simp [stop_server, hget]
  refine ⟨by simp [hstop, hget], by simp [hget]; exact hcases, ?_, ?_⟩
  · intro hf
    have hfs1 : fs1 = fs := by
      have habs := get_absent se.alive se.readRaises fs hf
      rw [hget] at habs
      exact (Prod.mk.injEq _ _ _ _ ▸ habs).2
    subst hfs1
    refine ⟨hstop, ?_⟩
    rw [hstop]
    exact hstop
  · simp [restart_server, hstop, hget]

/-- Instantiation of `C7_not_running_amended` with no record file present,
plus the discharged double-stop conclusion. -/
theorem C7_not_running_amended_witness :
    (get_server_pid stopEnvDead.alive stopEnvDead.readRaises ⟨none, true⟩).1 = none
    ∧ (stop_server stopEnvDead ⟨none, true⟩
          = (false, (get_server_pid stopEnvDead.alive stopEnvDead.readRaises
              ⟨none, true⟩).2, [Ev.warnNotRunning])
        ∧ ((get_server_pid stopEnvDead.alive stopEnvDead.readRaises ⟨none, true⟩).2
              = ⟨none, true⟩
            ∨ (get_server_pid stopEnvDead.alive stopEnvDead.readRaises ⟨none, true⟩).2
              = { (⟨none, true⟩ : FS) with pidFile := none })
        ∧ ((⟨none, true⟩ : FS).pidFile = none →
            stop_server stopEnvDead ⟨none, true⟩
              = (false, ⟨none, true⟩, [Ev.warnNotRunning])
            ∧ stop_server stopEnvDead (stop_server stopEnvDead ⟨none, true⟩).2.1
              = (false, ⟨none, true⟩, [Ev.warnNotRunning]))
        ∧ (restart_server stopEnvDead startEnvBgOk ⟨none, true⟩).2
            = Ev.warnNotRunning :: Ev.sleepTenths 10 ::
                (start_server false false startEnvBgOk
                  (get_server_pid stopEnvDead.alive stopEnvDead.readRaises
                    ⟨none, true⟩).2).2.2)
    ∧ stop_server stopEnvDead (stop_server stopEnvDead ⟨none, true⟩).2.1
        = (false, ⟨none, true⟩, [Ev.warnNotRunning]) :=
  ⟨rfl, C7_not_running_amended stopEnvDead startEnvBgOk ⟨none, true⟩ rfl,
    ((C7_not_running_amended stopEnvDead startEnvBgOk ⟨none, true⟩ rfl).2.2.1 rfl).2⟩

/-! ## Spawn-event lemmas (for Claim C8) -/

/-- The wait loop emits only sleeps and probes, never a spawn. -/
theorem spawn_not_mem_stopPoll (pid : Int) (f : Nat → Bool) (b g : Bool) :
    ∀ n i, Ev.spawn b g ∉ (stopPoll pid f i n).1 := by
  intro n
  induction n with
  | zero => intro i; simp [stopPoll]
  | succ n ih =>
    intro i
    by_cases h : f i = true
    · simp [stopPoll, h, ih (i + 1)]
    · simp only [Bool.not_eq_true] at h
      simp [stopPoll, h]

/-- `stop_server` never emits a spawn event. -/
theorem spawn_not_mem_stop (env : StopEnv) (fs : FS) (b g : Bool) :
    Ev.spawn b g ∉ (stop_server env fs).2.2 := by
  rcases hget : get_server_pid env.alive env.readRaises fs with ⟨o, fs1⟩
  cases o with
  | none => simp [stop_server, hget]
  | some pid =>
    simp only [stop_server, hget]
    split_ifs <;>
      simp [spawn_not_mem_stopPoll pid env.pollAlive b g 10 0]

/-- Every spawn event emitted by `start_server fg go` carries exactly the
mode flags `fg` and `go` of that call. -/
theorem spawn_mem_start (fg go : Bool) (env : StartEnv) (fs : FS) (b g : Bool) :
    Ev.spawn b g ∈ (start_server fg go env fs).2.2 → b = fg ∧ g = go := by
  intro h
  rcases hget : get_server_pid env.alive env.readRaises fs with ⟨o, fs1⟩
  cases o with
  | some p => simp [start_server, hget] at h
  | none =>
    by_cases h1 : (!go && !fs1.execExists) = true
    · simp [start_server, hget, h1] at h
    · simp only [Bool.not_eq_true] at h1
      by_cases h2 : env.spawnRaises = true
      · simp [start_server, hget, h1, h2] at h
        exact h
      · simp only [Bool.not_eq_true] at h2
        cases fg with
        | true =>
          by_cases h4 : env.waitInterrupted = true
          · simp [start_server, hget, h1, h2, h4, spawn_not_mem_stop] at h
            exact h
          · simp only [Bool.not_eq_true] at h4
            simp [start_server, hget, h1, h2, h4] at h
            exact h
        | false =>
          by_cases h5 : env.exitedWithinGrace = true
          · simp [start_server, hget, h1, h2, h5] at h
            exact h
          · simp only [Bool.not_eq_true] at h5
            simp [start_server, hget, h1, h2, h5] at h
            exact h

/-! ## Claim C8 -/

/-- Claim C8: every restart call is exactly a stop, then the fixed 1 s
delay, then a start in default background mode with the default launch
target — any spawn a restart ever performs is a background,
default-target spawn, regardless of how the prior run was started. -/
theorem C8_restart_stop_delay_default_start (se : StopEnv) (ste : StartEnv) (fs : FS) :
    (restart_server se ste fs).2
      = (stop_server se fs).2.2
          ++ Ev.sleepTenths 10 ::
            (start_server false false ste (stop_server se fs).2.1).2.2
    ∧ (restart_server se ste fs).1
        = (start_server false false ste (stop_server se fs).2.1).2.1
    ∧ ∀ b g, Ev.spawn b g ∈ (restart_server se ste fs).2 → b = false ∧ g = false := by
  refine ⟨rfl, rfl, ?_⟩
  intro b g h
  simp only [restart_server] at h
  rw [List.mem_append] at h
  rcases h with h | h
  · exact absurd h (spawn_not_mem_stop se fs b g)
  · rcases List.mem_cons.mp h with h | h
    · simp at h
    · exact spawn_mem_start false false ste _ b g h

/-- Instantiation of `C8_restart_stop_delay_default_start`: a restart from
the empty state whose background start succeeds; its trace contains the
background default-target spawn. -/
theorem C8_restart_stop_delay_default_start_witness :
    Ev.spawn false false ∈ (restart_server stopEnvDead startEnvBgOk ⟨none, true⟩).2
    ∧ (false = false ∧ false = false) :=
  ⟨by decide,
    (C8_restart_stop_delay_default_start stopEnvDead startEnvBgOk ⟨none, true⟩).2.2
      false false (by decide)⟩

/-! ## Claim C9 -/

/-- Claim C9: for every stop of a live pid (no primitive raising), the
escalation is: first the graceful `SIGTERM`; then 0.5-unit sleeps each
followed by an existence probe, for at most 10 attempts, stopping early
once the process is absent (every probe before the last finds it present;
when the loop is cut short the last probe found it absent); then `SIGKILL`
exactly when all 10 probes found it present, followed immediately by the
record unlink — no further waiting after the forced kill. -/
theorem C9_escalation_order (env : StopEnv) (fs : FS) (s : String) (pid : Int)
    (hf : fs.pidFile = some s) (hp : pyInt s = some pid)
    (ha : env.alive pid = true) (hr : env.readRaises = false)
    (ht : env.termRaises = false) (hk : env.killRaises = false) :
    (stop_server env fs).2.2
      = Ev.sigterm pid
          :: ((List.range' 0 (pollCount env.pollAlive 0 10)).flatMap
                (fun j => [Ev.sleepTenths 5, Ev.probe pid (env.pollAlive j)])
              ++ (if allAliveFrom env.pollAlive 0 10 = true
                  then [Ev.sigkill pid, Ev.unlink] else [Ev.unlink]))
    ∧ 0 < pollCount env.pollAlive 0 10
    ∧ pollCount env.pollAlive 0 10 ≤ 10
    ∧ (∀ j, j + 1 < pollCount env.pollAlive 0 10 → env.pollAlive j = true)
    ∧ (allAliveFrom env.pollAlive 0 10 = true ↔ ∀ j, j < 10 → env.pollAlive j = true)
    ∧ (allAliveFrom env.pollAlive 0 10 = false →
          env.pollAlive (pollCount env.pollAlive 0 10 - 1) = false) := by
  have hg : get_server_pid env.alive env.readRaises fs = (some pid, fs) := by
    rw [hr]; exact get_live env.alive fs s pid hf hp ha
  have hsp := stopPoll_spec pid env.pollAlive 10 0
  refine ⟨?_, pollCount_pos env.pollAlive 10 0 (by omega), pollCount_le env.pollAlive 10 0,
          fun j hj => by simpa using pollCount_early env.pollAlive 10 0 j hj,
          by simpa using allAliveFrom_iff env.pollAlive 10 0,
          fun hdead => by simpa using pollCount_last_dead env.pollAlive 10 0 hdead⟩
  have h1 : (stopPoll pid env.pollAlive 0 10).1
      = (List.range' 0 (pollCount env.pollAlive 0 10)).flatMap
          (fun j => [Ev.sleepTenths 5, Ev.probe pid (env.pollAlive j)]) := by
    rw [hsp]
  by_cases hall : allAliveFrom env.pollAlive 0 10 = true
  · have h2 : (stopPoll pid env.pollAlive 0 10).2 = true := by rw [hsp]; exact hall
    simp [stop_server, hg, ht, hk, h2, h1, hall]
  · have h2 : (stopPoll pid env.pollAlive 0 10).2 = false := by
      rw [hsp]
      exact Bool.not_eq_true _ ▸ hall
    simp [stop_server, hg, ht, hk, h2, h1, hall]

/-- Instantiation of `C9_escalation_order` at a live pid 7 that survives
every probe, forcing the forced-kill path; the full trace has 23 events. -/
theorem C9_escalation_order_witness :
    (⟨some "7", true⟩ : FS).pidFile = some "7"
    ∧ pyInt "7" = some 7
    ∧ stopEnvFull.alive 7 = true
    ∧ ((stop_server stopEnvFull ⟨some "7", true⟩).2.2
        = Ev.sigterm 7
            :: ((List.range' 0 (pollCount stopEnvFull.pollAlive 0 10)).flatMap
                  (fun j => [Ev.sleepTenths 5, Ev.probe 7 (stopEnvFull.pollAlive j)])
                ++ (if allAliveFrom stopEnvFull.pollAlive 0 10 = true
                    then [Ev.sigkill 7, Ev.unlink] else [Ev.unlink])))
    ∧ (stop_server stopEnvFull ⟨some "7", true⟩).2.2.length = 23 :=
  ⟨rfl, by decide, by decide,
    (C9_escalation_order stopEnvFull ⟨some "7", true⟩ "7" 7 rfl (by decide)
      (by decide) rfl rfl rfl).1,
    by decide⟩

/-! ## Claim C10 -/

/-- Claim C10: the read does not enforce positivity — for every record whose
content parses as an integer `n ≤ 0` that the existence probe reports live,
`get_server_pid` returns `n` as the pid, and a subsequent `stop_server`
passes that non-positive `n` directly to the termination primitive (its
first emitted action is the `SIGTERM` to `n`). -/
theorem C10_nonpositive_pid_passthrough (env : StopEnv) (fs : FS) (s : String)
    (n : Int) (hf : fs.pidFile = some s) (hp : pyInt s = some n) (_hn : n ≤ 0)
    (ha : env.alive n = true) (hr : env.readRaises = false) :
    (get_server_pid env.alive env.readRaises fs).1 = some n
    ∧ ∃ rest, (stop_server env fs).2.2 = Ev.sigterm n :: rest := by
  have hg : get_server_pid env.alive env.readRaises fs = (some n, fs) := by
    rw [hr]; exact get_live env.alive fs s n hf hp ha
  refine ⟨by rw [hg], ?_⟩
  by_cases ht : env.termRaises = true
  · exact ⟨[Ev.errStopFailed], by simp [stop_server, hg, ht]⟩
  · simp only [Bool.not_eq_true] at ht
    by_cases hc : (stopPoll n env.pollAlive 0 10).2 = true
    · by_cases hk : env.killRaises = true
      · exact ⟨(stopPoll n env.pollAlive 0 10).1 ++ [Ev.sigkill n, Ev.errStopFailed],
          by simp [stop_server, hg, ht, hc, hk]⟩
      · simp only [Bool.not_eq_true] at hk
        exact ⟨(stopPoll n env.pollAlive 0 10).1 ++ [Ev.sigkill n, Ev.unlink],
          by simp [stop_server, hg, ht, hc, hk]⟩
    · simp only [Bool.not_eq_true] at hc
      exact ⟨(stopPoll n env.pollAlive 0 10).1 ++ [Ev.unlink],
        by simp [stop_server, hg, ht, hc]⟩

/-- Instantiation of `C10_nonpositive_pid_passthrough` at a record file
containing `"-1"` with the probe reporting pid -1 live: the stop sends
`SIGTERM` to -1. -/
theorem C10_nonpositive_pid_passthrough_witness :
    (⟨some "-1", true⟩ : FS).pidFile = some "-1"
    ∧ pyInt "-1" = some (-1)
    ∧ ((-1 : Int) ≤ 0)
    ∧ stopEnvNeg.alive (-1) = true
    ∧ ((get_server_pid stopEnvNeg.alive stopEnvNeg.readRaises ⟨some "-1", true⟩).1
          = some (-1)
        ∧ ∃ rest, (stop_server stopEnvNeg ⟨some "-1", true⟩).2.2
            = Ev.sigterm (-1) :: rest) :=
  ⟨rfl, by decide, by decide, by decide,
    C10_nonpositive_pid_passthrough stopEnvNeg ⟨some "-1", true⟩ "-1" (-1)
      rfl (by decide) (by decide) (by decide) rfl⟩

end ServerControl
